import Mathlib

/-!
Verification of the Universal AI Backend gateway (`src/main.py`).

The Python source is shallowly embedded: pure helpers become Lean
functions over `String`/`List`; route handlers that consult the clock,
the network or a subprocess become pure functions of an explicit
environment (current time, the subprocess/HTTP outcome) returning the
response data and the successor state.  Python floats used as Unix
timestamps are modelled as rationals, Python `int` as `Int`.
-/

namespace UniversalAI

/-! ## Output sanitizer

`ANSI_ESCAPE_RE = re.compile(r"\x1b\[[0-9;]*[A-Za-z]")`
`ANSI_ORPHAN_RE = re.compile(r"\[[0-9;]*m")`

Both regexes have the shape `prefix, [0-9;]*, terminator` where the
terminator class is disjoint from `[0-9;]`, so the greedy star never
backtracks usefully: a match at a position is exactly "maximal run of
parameter characters, then a terminator".  `re.sub` substitution with
`""` is leftmost, non-overlapping removal, resuming after each match. -/

/-- Character class `[0-9;]` of both regex parameter runs. -/
def isParamChar (c : Char) : Bool :=
  ('0' ≤ c && c ≤ '9') || c == ';'

/-- Character class `[A-Za-z]`, the terminator of `ANSI_ESCAPE_RE`. -/
def isAsciiLetter (c : Char) : Bool :=
  ('A' ≤ c && c ≤ 'Z') || ('a' ≤ c && c ≤ 'z')

/-- After `ESC [`, try to match `[0-9;]*[A-Za-z]`; on success return the
characters after the match. -/
def escapeTail (l : List Char) : Option (List Char) :=
  match l.dropWhile isParamChar with
  | c :: rest => if isAsciiLetter c then some rest else none
  | [] => none

/-- Worker for `ANSI_ESCAPE_RE.sub("", ·)`: remove every
`ESC [ [0-9;]* [A-Za-z]` match, leftmost first, scanning left to right.
`fuel` bounds the number of scan steps; every step consumes at least one
character, so `l.length` is always enough fuel.  Structural recursion on
the fuel keeps the definition kernel-computable. -/
def ansiEscapeSubAux : Nat → List Char → List Char
  | 0, l => l
  | _ + 1, [] => []
  | fuel + 1, c :: cs =>
    if c = '\x1b' then
      match cs with
      | '[' :: rest =>
        match escapeTail rest with
        | some rest' => ansiEscapeSubAux fuel rest'
        | none => c :: ansiEscapeSubAux fuel cs
      | _ => c :: ansiEscapeSubAux fuel cs
    else c :: ansiEscapeSubAux fuel cs

/-- `ANSI_ESCAPE_RE.sub("", l)`. -/
def ansiEscapeSub (l : List Char) : List Char :=
  ansiEscapeSubAux l.length l

/-- After `[`, try to match `[0-9;]*m`; on success return the characters
after the match. -/
def orphanTail (l : List Char) : Option (List Char) :=
  match l.dropWhile isParamChar with
  | c :: rest => if c = 'm' then some rest else none
  | [] => none

/-- Worker for `ANSI_ORPHAN_RE.sub("", ·)`: remove every `\[[0-9;]*m`
match, leftmost first, with the same fuel discipline as
`ansiEscapeSubAux`. -/
def orphanSubAux : Nat → List Char → List Char
  | 0, l => l
  | _ + 1, [] => []
  | fuel + 1, c :: cs =>
    if c = '[' then
      match orphanTail cs with
      | some rest => orphanSubAux fuel rest
      | none => c :: orphanSubAux fuel cs
    else c :: orphanSubAux fuel cs

/-- `ANSI_ORPHAN_RE.sub("", l)`. -/
def orphanSub (l : List Char) : List Char :=
  orphanSubAux l.length l

/-- The output sanitizer of `codex_stream_generator`:
`ANSI_ORPHAN_RE.sub("", ANSI_ESCAPE_RE.sub("", text))`. -/
def sanitize (s : String) : String :=
  String.mk (orphanSub (ansiEscapeSub s.data))

theorem ansiEscapeSubAux_of_no_esc (fuel : Nat) (l : List Char)
    (h : '\x1b' ∉ l) : ansiEscapeSubAux fuel l = l := by
  induction fuel generalizing l with
  | zero => rfl
  | succ f ih =>
    match l with
    | [] => rfl
    | c :: cs =>
      have hc : ¬(c = '\x1b') := fun e => h (e ▸ List.mem_cons_self c cs)
      have hcs : '\x1b' ∉ cs := fun m => h (List.mem_cons_of_mem c m)
      simp only [ansiEscapeSubAux, if_neg hc]
      rw [ih cs hcs]

theorem orphanSubAux_of_no_bracket (fuel : Nat) (l : List Char)
    (h : '[' ∉ l) : orphanSubAux fuel l = l := by
  induction fuel generalizing l with
  | zero => rfl
  | succ f ih =>
    match l with
    | [] => rfl
    | c :: cs =>
      have hc : ¬(c = '[') := fun e => h (e ▸ List.mem_cons_self c cs)
      have hcs : '[' ∉ cs := fun m => h (List.mem_cons_of_mem c m)
      simp only [orphanSubAux, if_neg hc]
      rw [ih cs hcs]

/-- On text containing neither an escape character nor a `[`, the
sanitizer is the identity. -/
theorem sanitize_of_clean (s : String)
    (h1 : '\x1b' ∉ s.data) (h2 : '[' ∉ s.data) : sanitize s = s := by
  unfold sanitize ansiEscapeSub orphanSub
  rw [ansiEscapeSubAux_of_no_esc _ _ h1, orphanSubAux_of_no_bracket _ _ h2]

/-! ## Python string primitives used by the embedded functions -/

/-- ASCII case of Python `str.lower()` (the identifiers and hints the
code normalizes are ASCII). -/
def pyLower (s : String) : String :=
  String.mk (s.data.map Char.toLower)

/-- Python whitespace stripped by `str.strip()`. -/
def isPySpace (c : Char) : Bool :=
  c = ' ' || c = '\t' || c = '\n' || c = '\r' || c = '\x0b' || c = '\x0c'

/-- Python `str.strip()`. -/
def pyStrip (s : String) : String :=
  String.mk (((s.data.dropWhile isPySpace).reverse.dropWhile isPySpace).reverse)

/-- Does `hay` contain `needle` as a contiguous sublist (Python
`needle in hay` on the underlying characters)? -/
def containsChars (needle : List Char) : List Char → Bool
  | [] => needle.isEmpty
  | c :: cs => needle.isPrefixOf (c :: cs) || containsChars needle cs

/-- Python `needle in hay` for strings. -/
def pyContains (hay needle : String) : Bool :=
  containsChars needle.data hay.data

/-- Python `s.startswith(pre)`. -/
def pyStartswith (s pre : String) : Bool :=
  pre.data.isPrefixOf s.data

/-! ## Provider router (`is_codex_model`, `should_use_codex`) -/

/-- `model_id.strip().lower()` and, when a `/` is present, the part
after the first `/` (Python `normalized.split("/", 1)[1]`). -/
def normalizeModelId (model_id : String) : String :=
  let normalized := pyLower (pyStrip model_id)
  if normalized.data.contains '/' then
    String.mk ((normalized.data.dropWhile (fun c => c != '/')).tail)
  else normalized

/-- `is_codex_model` (src/main.py lines 188-192). -/
def is_codex_model (model_id : String) : Bool :=
  let normalized := normalizeModelId model_id
  normalized == "gpt-5.3" || normalized == "gpt-5.2"

/-- `should_use_codex` (src/main.py lines 195-205). -/
def should_use_codex (model_id : String) (model_provider : Option String) : Bool :=
  if is_codex_model model_id then true
  else
    let provider := pyLower (pyStrip (model_provider.getD ""))
    if provider == "codex" then true
    else if provider == "openrouter" then false
    else false

/-! ## Pairing-code extraction (`run_codex_command`)

`code_pattern = re.compile(r"\b[A-Z0-9]{4}-[A-Z0-9]{5}\b")`, used as
`code_pattern.search(output)`.  The pattern has fixed-length pieces, so
the search is a deterministic left-to-right scan. -/

/-- Character class `[A-Z0-9]` of `code_pattern`. -/
def isCodeChar (c : Char) : Bool :=
  ('A' ≤ c && c ≤ 'Z') || ('0' ≤ c && c ≤ '9')

/-- Word character of the regex `\b` boundary (`[A-Za-z0-9_]`; the
scraped CLI output is ASCII). -/
def isWordChar (c : Char) : Bool :=
  isAsciiLetter c || ('0' ≤ c && c ≤ '9') || c = '_'

/-- Try `[A-Z0-9]{4}-[A-Z0-9]{5}\b` at the head of the list; on success
return the matched text. -/
def matchCodeAt : List Char → Option String
  | a :: b :: c :: d :: '-' :: e :: f :: g :: h :: i :: rest =>
    if isCodeChar a && isCodeChar b && isCodeChar c && isCodeChar d &&
        isCodeChar e && isCodeChar f && isCodeChar g && isCodeChar h &&
        isCodeChar i &&
        (match rest with | [] => true | r :: _ => !isWordChar r) then
      some (String.mk [a, b, c, d, '-', e, f, g, h, i])
    else none
  | _ => none

/-- The left `\b` condition at a position: satisfiable start-of-string
or a non-word character before it (the pattern itself starts with a
word character). -/
def leftBoundaryOk : Option Char → Bool
  | none => true
  | some p => !isWordChar p

/-- Left-to-right scan of `code_pattern.search`: at each position whose
left context is a word boundary, try the fixed-shape match.  `prev` is
the character before the current position (`none` at the start). -/
def codeSearchFrom (prev : Option Char) : List Char → Option String
  | [] => none
  | c :: cs =>
    match (if leftBoundaryOk prev then matchCodeAt (c :: cs) else none) with
    | some code => some code
    | none => codeSearchFrom (some c) cs

/-- `code_pattern.search(output)` of `run_codex_command`
(src/main.py line 456), returning the matched pairing code if any. -/
def codePatternSearch (output : String) : Option String :=
  codeSearchFrom none output.data

/-! ## Device-auth start (`codex_device_auth_start`)

The handler reads the clock twice (`now = time.time()` on entry and
`time.time()` again when extending the cooldown) and calls
`run_codex_command`; it is embedded as a pure function of the stored
cooldown timestamp, the two clock readings and the command's result,
returning the HTTP status, response body, whether the login subprocess
was spawned, and the successor value of
`CODEX_DEVICE_AUTH_COOLDOWN_UNTIL`.  Timestamps are rationals. -/

/-- `CODEX_DEVICE_AUTH_COOLDOWN_SECONDS` (environment override, default
`"60"`). -/
def CODEX_DEVICE_AUTH_COOLDOWN_SECONDS : Int := 60

/-- The `CodexCommandResult` pydantic model. -/
structure CodexCommandResult where
  authenticated : Bool
  code : Option String := none
  verification_url : Option String := none
  output : Option String := none
  retry_after_seconds : Option Int := none
deriving DecidableEq

/-- Python falsiness of `result.code` in `if not result.code`
(`None` or the empty string). -/
def codeFalsy : Option String → Bool
  | none => true
  | some s => s.isEmpty

/-- Python `int(·)` on a float/rational: truncation toward zero. -/
def pyInt (q : ℚ) : Int :=
  q.num.tdiv q.den

/-- Python `max(a, b)` on ints. -/
def pyMax (a b : Int) : Int :=
  if a < b then b else a

/-- `"429" in lowered or "too many" in lowered or "rate limit" in lowered`
with `lowered = (result.output or "").lower()`. -/
def rateLimitSignal (output : Option String) : Bool :=
  let lowered := pyLower (output.getD "")
  pyContains lowered "429" || pyContains lowered "too many" ||
    pyContains lowered "rate limit"

/-- Observable outcome of one `codex_device_auth_start` call. -/
structure StartOutcome where
  status : Nat
  result : CodexCommandResult
  spawned : Bool
  cooldownUntil : ℚ
deriving DecidableEq

/-- `codex_device_auth_start` (src/main.py lines 467-494).
`cooldownUntil` is the stored `CODEX_DEVICE_AUTH_COOLDOWN_UNTIL`, `now`
the entry clock reading, `result` what `run_codex_command` returned when
spawned, and `now2` the second clock reading of the rate-limit branch. -/
def codex_device_auth_start (cooldownUntil : ℚ) (now : ℚ)
    (result : CodexCommandResult) (now2 : ℚ) : StartOutcome :=
  if now < cooldownUntil then
    let retry := pyMax 1 (pyInt (cooldownUntil - now))
    { status := 429
      result := { authenticated := false
                  output := some ("Device auth is temporarily rate-limited. Try again in "
                    ++ toString retry ++ "s.")
                  retry_after_seconds := some retry }
      spawned := false
      cooldownUntil := cooldownUntil }
  else if codeFalsy result.code then
    if rateLimitSignal result.output then
      { status := 429
        result := { result with
                    retry_after_seconds := some CODEX_DEVICE_AUTH_COOLDOWN_SECONDS }
        spawned := true
        cooldownUntil := now2 + (CODEX_DEVICE_AUTH_COOLDOWN_SECONDS : ℚ) }
    else
      { status := 500, result := result, spawned := true
        cooldownUntil := cooldownUntil }
  else
    { status := 200
      result := { result with retry_after_seconds := none }
      spawned := true
      cooldownUntil := 0 }

/-! ## Model catalog

JSON values inspected by the catalog code are modelled explicitly;
numbers are rationals. -/

inductive Json where
  | null
  | bool (b : Bool)
  | num (q : ℚ)
  | str (s : String)
  | arr (elems : List Json)
  | obj (fields : List (String × Json))

/-- Python `dict` lookup (first binding wins). -/
def jsonLookup (k : String) : List (String × Json) → Option Json
  | [] => none
  | (k', v) :: rest => if k' = k then some v else jsonLookup k rest

/-- `m.get(k)` on a dict; `None` (here `none`) when `m` is not a dict. -/
def Json.get? (j : Json) (k : String) : Option Json :=
  match j with
  | .obj fields => jsonLookup k fields
  | _ => none

/-- Python truthiness of a JSON value. -/
def pyTruthy : Json → Bool
  | .null => false
  | .bool b => b
  | .num q => q.num != 0
  | .str s => !s.isEmpty
  | .arr elems => !elems.isEmpty
  | .obj fields => !fields.isEmpty

/-- `MODEL_CACHE_TTL_SECONDS = 300`. -/
def MODEL_CACHE_TTL_SECONDS : Int := 300

/-- The process-wide `MODEL_CACHE` dict
(`{"fetched_at": 0.0, "models": []}` initially). -/
structure ModelCacheState where
  fetched_at : ℚ
  models : List Json

/-- Observable outcome of one `get_openrouter_models` call. -/
structure FetchOutcome where
  result : Except String (List Json)
  cache : ModelCacheState
  fetchedRemote : Bool

/-- `get_openrouter_models` (src/main.py lines 104-127), as a pure
function of the cache state, the clock, and the remote response
(status code and JSON payload) that the network would deliver if
called. -/
def get_openrouter_models (cache : ModelCacheState) (now : ℚ)
    (status : Nat) (payload : Json) : FetchOutcome :=
  if cache.models.isEmpty = false ∧ (now - cache.fetched_at) < (MODEL_CACHE_TTL_SECONDS : ℚ) then
    { result := .ok cache.models, cache := cache, fetchedRemote := false }
  else if status ≠ 200 then
    { result := .error ("OpenRouter models request failed (" ++ toString status ++ ")")
      cache := cache, fetchedRemote := true }
  else
    let models := match payload with
      | .obj _ =>
        match payload.get? "data" with
        | some (.arr elems) => elems
        | some _ => []
        | none => []
      | _ => []
    { result := .ok models
      cache := { fetched_at := now, models := models }
      fetchedRemote := true }

/-- One merged catalog entry (`{"id": ..., "label": ...}`). -/
structure ModelEntry where
  id : String
  label : String
deriving DecidableEq

/-- `codex_curated_models` (src/main.py lines 147-156). -/
def codex_curated_models : List ModelEntry :=
  [⟨"gpt-5.3", "GPT-5.3 Codex"⟩,
   ⟨"gpt-5.2", "GPT-5.2 Codex"⟩,
   ⟨"openai/gpt-5.2-chat", "GPT-5.2"⟩,
   ⟨"deepseek/deepseek-r1", "DeepSeek"⟩,
   ⟨"google/gemini-3-flash", "Gemini 3 Flash"⟩,
   ⟨"meta-llama/llama-4", "Llama 4"⟩,
   ⟨"openai/gpt-4o-mini", "GPT-4o Mini"⟩]

/-- `codex_model_keywords` (src/main.py lines 159-167). -/
def codex_model_keywords : List String :=
  ["gpt-5.3", "gpt-5.2", "gpt-4o-mini", "deepseek-r1", "gemini-3-flash", "llama-4"]

/-- `model_id.split("/", 1)[-1]`: the part after the first `/`, or the
whole string when there is none. -/
def splitOnceTail (s : String) : String :=
  if s.data.contains '/' then
    String.mk ((s.data.dropWhile (fun c => c != '/')).tail)
  else s

/-- Python `str.title()` (ASCII): a letter is uppercased when the
previous character is not a letter, lowercased otherwise. -/
def pyTitle (s : String) : String :=
  String.mk ((s.data.foldl
    (fun (acc : List Char × Bool) c =>
      if c.isAlpha then
        ((if acc.2 then c.toLower else c.toUpper) :: acc.1, true)
      else (c :: acc.1, false))
    ([], false)).1.reverse)

/-- `codex_label` (src/main.py lines 170-171). -/
def codex_label (model_id : String) : String :=
  pyTitle (String.mk ((splitOnceTail model_id).data.map
    (fun c => if c = '-' || c = ':' then ' ' else c)))

/-- `model.get("id") if isinstance(model, dict) else None`, then the
`isinstance(model_id, str) and model_id` admission test of `merge`. -/
def dynamicId (j : Json) : Option String :=
  match j with
  | .obj fields =>
    match jsonLookup "id" fields with
    | some (.str s) => if s.isEmpty then none else some s
    | _ => none
  | _ => none

/-- `any(keyword in lowered for keyword in codex_model_keywords())`. -/
def keywordMatch (model_id : String) : Bool :=
  codex_model_keywords.any (fun k => pyContains (pyLower model_id) k)

/-- `merged.setdefault(model_id, label)` on the insertion-ordered dict,
viewed as an association list. -/
def setdefaultEntry (m : List ModelEntry) (id label : String) : List ModelEntry :=
  if m.any (fun e => e.id == id) then m else m ++ [⟨id, label⟩]

/-- One iteration of the `merge_codex_models` loop. -/
def mergeStep (m : List ModelEntry) (j : Json) : List ModelEntry :=
  match dynamicId j with
  | some id => if keywordMatch id then setdefaultEntry m id (codex_label id) else m
  | none => m

/-- `merge_codex_models` (src/main.py lines 174-185); `None` is the
empty list, over which the loop body never runs. -/
def merge_codex_models (dynamic_models : List Json) : List ModelEntry :=
  dynamic_models.foldl mergeStep codex_curated_models

/-! ## `GET /api/models/openrouter` normalization -/

/-- One entry of the endpoint's `models` list
(`{"id": ..., "name": ..., "context_length": ...}`). -/
structure NormalizedModel where
  id : Json
  name : Json
  context_length : Json

/-- `isinstance(m, dict)`. -/
def isDict : Json → Bool
  | .obj _ => true
  | _ => false

/-- `isinstance(m.get("id"), str)`. -/
def idIsString (m : Json) : Bool :=
  match m.get? "id" with
  | some (.str _) => true
  | _ => false

/-- Body and guard of the `openrouter_models` list comprehension
(src/main.py lines 372-380): `none` when the guard drops the entry. -/
def normalizeEntry (m : Json) : Option NormalizedModel :=
  if isDict m && idIsString m then
    some { id := (m.get? "id").getD (.str "")
           name :=
             match m.get? "name" with
             | some v => if pyTruthy v then v else (m.get? "id").getD (.str "")
             | none => (m.get? "id").getD (.str "")
           context_length := (m.get? "context_length").getD (.num 0) }
  else none

/-- The `normalized` list built by the `openrouter_models` endpoint. -/
def openrouter_models_normalized (models : List Json) : List NormalizedModel :=
  models.filterMap normalizeEntry

/-! ## Recommendation scorer (`rank_model_for_prompt`, `recommend_model`) -/

/-- Coding-related prompt keywords (shared by the scorer and the
reason selection). -/
def codePromptKeywords : List String :=
  ["code", "fix", "bug", "typescript", "python", "react", "refactor", "deploy"]

/-- Reasoning-related prompt keywords. -/
def reasoningPromptKeywords : List String :=
  ["reason", "math", "analysis", "plan", "logic"]

/-- `rank_model_for_prompt` (src/main.py lines 130-144). -/
def rank_model_for_prompt (prompt : String) (model_id : String) : Int :=
  let text := pyLower prompt
  let model := pyLower model_id
  let score : Int := 0
  let score := if codePromptKeywords.any (fun k => pyContains text k) then
      (if ["gpt-5", "gpt-4", "coder", "qwen"].any (fun k => pyContains model k)
       then score + 4 else score)
    else score
  let score := if reasoningPromptKeywords.any (fun k => pyContains text k) then
      (if ["r1", "o1", "o3", "gpt-5", "think", "reason"].any (fun k => pyContains model k)
       then score + 4 else score)
    else score
  let score := if ["gpt-5", "gpt-4.1", "gpt-4o"].any (fun k => pyContains model k)
    then score + 2 else score
  let score := if [":free", "mini", "nano"].any (fun k => pyContains model k)
    then score - 1 else score
  score

/-- Outcome of the `recommend_model` endpoint body. -/
inductive RecommendOutcome where
  | badRequest
  | indexError
  | ok (recommended : String) (ranked : List String) (reason : String)

/-- `recommend_model` (src/main.py lines 395-422) with the dynamic
models already resolved (empty on missing key or fetch failure).
`indexError` marks the `scored[0]` lookup on an empty list, which
Python would raise on; it is proved unreachable. -/
def recommend_model (message : String) (candidates : List String)
    (dynamic_models : List Json) : RecommendOutcome :=
  let codex_model_ids := (merge_codex_models dynamic_models).map (fun e => e.id)
  let cands := if candidates.isEmpty then codex_model_ids else candidates
  if cands.isEmpty then .badRequest
  else
    let scored := cands.map (fun m => (m, rank_model_for_prompt message m))
    let sorted := scored.mergeSort (fun a b => decide (b.2 ≤ a.2))
    match sorted with
    | [] => .indexError
    | (best, best_score) :: _ =>
      let prompt_lower := pyLower message
      let reason :=
        if codePromptKeywords.any (fun k => pyContains prompt_lower k) then
          "Your prompt is code-heavy, so this coding-capable model is prioritized."
        else if reasoningPromptKeywords.any (fun k => pyContains prompt_lower k) then
          "Your prompt needs deeper reasoning, so the highest reasoning-scored model is selected."
        else if best_score ≤ 0 then
          "No strong keyword match found; using the best available default Codex model."
        else "Best overall Codex model for this prompt."
      .ok best ((sorted.take 8).map (fun p => p.1)) reason

/-! ## Streaming bridge (`codex_stream_generator`,
`openrouter_stream_generator`)

Each generator is embedded as a function from what its environment does
(chunks or lines delivered, exit status, exceptions raised) to the list
of SSE frame strings it yields, in order.  `yield` statements in
`finally` blocks run on every exit path, including early `return`s. -/

/-- Lowercase hex digit. -/
def hexDigit (n : Nat) : Char :=
  if n < 10 then Char.ofNat ('0'.toNat + n) else Char.ofNat ('a'.toNat + n - 10)

/-- Four-digit hex rendering used by `\uXXXX` escapes. -/
def hex4 (n : Nat) : List Char :=
  [hexDigit (n / 4096 % 16), hexDigit (n / 256 % 16), hexDigit (n / 16 % 16),
   hexDigit (n % 16)]

/-- `json.dumps` escaping of one character (default `ensure_ascii`):
quote, backslash and the named control escapes, `\uXXXX` for other
control or non-ASCII characters, surrogate pairs above the BMP. -/
def jsonEscapeChar (c : Char) : List Char :=
  if c = '"' then ['\\', '"']
  else if c = '\\' then ['\\', '\\']
  else if c = '\n' then ['\\', 'n']
  else if c = '\r' then ['\\', 'r']
  else if c = '\t' then ['\\', 't']
  else if c = '\x08' then ['\\', 'b']
  else if c = '\x0c' then ['\\', 'f']
  else if c.toNat < 0x20 then '\\' :: 'u' :: hex4 c.toNat
  else if c.toNat < 0x80 then [c]
  else if c.toNat < 0x10000 then '\\' :: 'u' :: hex4 c.toNat
  else
    let v := c.toNat - 0x10000
    ('\\' :: 'u' :: hex4 (0xd800 + v / 1024)) ++ ('\\' :: 'u' :: hex4 (0xdc00 + v % 1024))

/-- `json.dumps` of a Python string. -/
def pyJsonStr (s : String) : String :=
  String.mk ('"' :: ((s.data.map jsonEscapeChar).flatten ++ ['"']))

/-- The terminal sentinel frame `data: [DONE]\n\n`. -/
def doneFrame : String := "data: [DONE]\n\n"

/-- `data: {"choices": [{"delta": {"content": <text>}}]}\n\n`. -/
def contentFrame (text : String) : String :=
  "data: \x7b\"choices\": [\x7b\"delta\": \x7b\"content\": " ++
    (pyJsonStr text ++ "\x7d\x7d]\x7d\n\n")

/-- `data: {"error": <msg>}\n\n`. -/
def errorFrame (msg : String) : String :=
  "data: \x7b\"error\": " ++ (pyJsonStr msg ++ "\x7d\n\n")

/-- `data: {"error": <msg>, "detail": <detail>}\n\n`. -/
def errorDetailFrame (msg detail : String) : String :=
  "data: \x7b\"error\": " ++
    (pyJsonStr msg ++ (", \"detail\": " ++ (pyJsonStr detail ++ "\x7d\n\n")))

/-- Environment of one `codex_stream_generator` run: whether
`process.stdout` was available (always true under `stdout=PIPE`), the
decoded texts of the chunks read before exit or failure, an exception
raised inside the `try` block after those chunks (at spawn, the stdin
write, a read, or `wait`), and the exit status when `wait` completed. -/
structure CodexRun where
  stdoutAvailable : Bool
  chunks : List String
  exc : Option String
  returnCode : Int

/-- The in-stream authentication-failure watch:
`"401 unauthorized" in lowered or "missing bearer" in lowered` over the
sanitized nonempty chunks. -/
def authErrorDetected (chunks : List String) : Bool :=
  chunks.any (fun t => !t.isEmpty &&
    (pyContains (pyLower (sanitize t)) "401 unauthorized" ||
     pyContains (pyLower (sanitize t)) "missing bearer"))

/-- The content frames of the chunk loop: empty decoded texts are
skipped, the rest sanitized and wrapped. -/
def codexContentFrames (chunks : List String) : List String :=
  chunks.filterMap (fun t =>
    if t.isEmpty then none else some (contentFrame (sanitize t)))

/-- `codex_stream_generator` (src/main.py lines 235-311) as the frame
sequence it yields. -/
def codex_stream_generator (r : CodexRun) : List String :=
  if r.stdoutAvailable = false then
    [errorFrame "Codex output stream unavailable", doneFrame, doneFrame]
  else
    let frames := codexContentFrames r.chunks
    match r.exc with
    | some e => frames ++ [errorFrame e, doneFrame]
    | none =>
      if r.returnCode ≠ 0 then
        frames ++
          [errorDetailFrame ("Codex request failed with status " ++ toString r.returnCode)
            (if authErrorDetected r.chunks then
              "Codex is not authenticated. Open Settings and reconnect ChatGPT Codex."
             else "Codex execution failed. Reconnect Codex and retry."),
           doneFrame]
      else frames ++ [doneFrame]

/-- Environment of one `openrouter_stream_generator` run: the request's
credential, a transport exception raised before the status was read, the
HTTP status, the non-200 response body, the `aiter_lines()` values
delivered, and a transport exception raised after those lines. -/
structure OpenRouterRun where
  api_key : Option String
  excBeforeBody : Option String
  status : Nat
  body : String
  lines : List String
  excAfterLines : Option String

/-- The passthrough frames of the line loop: empty lines are skipped,
lines starting with `data:` are re-emitted verbatim with the SSE frame
terminator, other lines are dropped. -/
def openRouterLineFrames (lines : List String) : List String :=
  lines.filterMap (fun l =>
    if l.isEmpty then none
    else if pyStartswith l "data:" then some (l ++ "\n\n") else none)

/-- `openrouter_stream_generator` (src/main.py lines 313-358) as the
frame sequence it yields. -/
def openrouter_stream_generator (r : OpenRouterRun) : List String :=
  if (r.api_key.getD "").isEmpty then
    [errorFrame "OpenRouter API key is required for this model.", doneFrame]
  else
    match r.excBeforeBody with
    | some e => [errorFrame e, doneFrame]
    | none =>
      if r.status ≠ 200 then
        [errorDetailFrame ("OpenRouter request failed with status " ++ toString r.status)
          (String.mk (r.body.data.take 600)),
         doneFrame]
      else
        let frames := openRouterLineFrames r.lines
        match r.excAfterLines with
        | some e => frames ++ [errorFrame e, doneFrame]
        | none => frames

/-- A `run_codex_command` result carrying a pairing code. -/
def resultWithCode : CodexCommandResult :=
  { authenticated := false, code := some "ABCD-EFGHI"
    verification_url := some "https://auth.openai.com/codex/device" }

/-- A codeless `run_codex_command` result whose output signals an
upstream rate limit. -/
def resultRateLimited : CodexCommandResult :=
  { authenticated := false, output := some "Error 429 Too Many Requests" }

/-- A codeless `run_codex_command` result without rate-limit markers. -/
def resultPlainFailure : CodexCommandResult :=
  { authenticated := false, output := some "stream error" }

end UniversalAI

namespace UniversalAI

/-- C5: a `codex_device_auth_start` call while the stored cooldown
timestamp is strictly in the future spawns no subprocess, leaves the
stored timestamp unchanged, and returns a 429 whose
`retry_after_seconds` is `max(1, int(CODEX_DEVICE_AUTH_COOLDOWN_UNTIL - now))`,
computed deterministically from the stored timestamp and the clock. -/
theorem device_auth_start_cooldown_rejection
    (cu now : ℚ) (res : CodexCommandResult) (now2 : ℚ) (h : now < cu) :
    codex_device_auth_start cu now res now2 =
      { status := 429
        result := { authenticated := false
                    output := some ("Device auth is temporarily rate-limited. Try again in "
                      ++ toString (pyMax 1 (pyInt (cu - now))) ++ "s.")
                    retry_after_seconds := some (pyMax 1 (pyInt (cu - now))) }
        spawned := false
        cooldownUntil := cu } := by
  simp [codex_device_auth_start, if_pos h]

/-- Witness for `device_auth_start_cooldown_rejection` at
`cooldownUntil = 10`, `now = 3`. -/
theorem device_auth_start_cooldown_rejection_witness :
    (3 : ℚ) < 10 ∧
    codex_device_auth_start 10 3 resultWithCode 3 =
      { status := 429
        result := { authenticated := false
                    output := some "Device auth is temporarily rate-limited. Try again in 7s."
                    retry_after_seconds := some 7 }
        spawned := false
        cooldownUntil := 10 } := by
  refine ⟨by norm_num, ?_⟩
  rw [device_auth_start_cooldown_rejection 10 3 resultWithCode 3 (by norm_num)]
  norm_num [pyInt, pyMax]
  decide

/-- C3 counterexample: a start call that is not rejected by a cooldown
and obtains a pairing code stores `0.0` as the cooldown timestamp (not
a time in the future), and an immediately following call does spawn a
new login subprocess. -/
theorem device_auth_start_no_cooldown_after_success :
    (codex_device_auth_start 0 100 resultWithCode 100).cooldownUntil = 0 ∧
    ¬ (100 < (codex_device_auth_start 0 100 resultWithCode 100).cooldownUntil) ∧
    (codex_device_auth_start
      ((codex_device_auth_start 0 100 resultWithCode 100).cooldownUntil)
      100 resultWithCode 100).spawned = true := by
  refine ⟨?_, ?_, ?_⟩ <;>
    · norm_num [codex_device_auth_start, resultWithCode, codeFalsy]
      decide

/-- C3 amended: after a start call that is not rejected by an in-effect
cooldown, the stored cooldown timestamp is moved into the future only
when the command yielded no pairing code and its output signals an
upstream rate limit (then it becomes `now2 + 60` with a 429 carrying
`retry_after_seconds = 60`); obtaining a code resets it to `0.0`, and a
codeless failure without rate-limit markers leaves it unchanged with a
500. -/
theorem device_auth_start_cooldown_disposition
    (cu now : ℚ) (res : CodexCommandResult) (now2 : ℚ) (h : ¬ now < cu) :
    (codeFalsy res.code = false →
      (codex_device_auth_start cu now res now2).cooldownUntil = 0 ∧
      (codex_device_auth_start cu now res now2).status = 200 ∧
      (codex_device_auth_start cu now res now2).spawned = true) ∧
    (codeFalsy res.code = true → rateLimitSignal res.output = true →
      (codex_device_auth_start cu now res now2).cooldownUntil = now2 + (60 : ℚ) ∧
      (codex_device_auth_start cu now res now2).status = 429 ∧
      (codex_device_auth_start cu now res now2).result.retry_after_seconds = some 60) ∧
    (codeFalsy res.code = true → rateLimitSignal res.output = false →
      (codex_device_auth_start cu now res now2).cooldownUntil = cu ∧
      (codex_device_auth_start cu now res now2).status = 500) := by
  refine ⟨fun h1 => ?_, fun h1 h2 => ?_, fun h1 h2 => ?_⟩
  · simp [codex_device_auth_start, if_neg h, h1]
  · simp [codex_device_auth_start, if_neg h, h1, h2,
      CODEX_DEVICE_AUTH_COOLDOWN_SECONDS]
  · simp [codex_device_auth_start, if_neg h, h1, h2]

/-- Witness for `device_auth_start_cooldown_disposition` on the three
branches (code obtained, rate-limited failure, plain failure). -/
theorem device_auth_start_cooldown_disposition_witness :
    ((codex_device_auth_start 0 100 resultWithCode 100).cooldownUntil = 0 ∧
      (codex_device_auth_start 0 100 resultWithCode 100).status = 200 ∧
      (codex_device_auth_start 0 100 resultWithCode 100).spawned = true) ∧
    ((codex_device_auth_start 0 5 resultRateLimited 6).cooldownUntil = 6 + (60 : ℚ) ∧
      (codex_device_auth_start 0 5 resultRateLimited 6).status = 429 ∧
      (codex_device_auth_start 0 5 resultRateLimited 6).result.retry_after_seconds = some 60) ∧
    ((codex_device_auth_start 7 9 resultPlainFailure 9).cooldownUntil = 7 ∧
      (codex_device_auth_start 7 9 resultPlainFailure 9).status = 500) :=
  ⟨(device_auth_start_cooldown_disposition 0 100 resultWithCode 100
      (by norm_num)).1 (by decide),
   (device_auth_start_cooldown_disposition 0 5 resultRateLimited 6
      (by norm_num)).2.1 (by decide) (by decide),
   (device_auth_start_cooldown_disposition 7 9 resultPlainFailure 9
      (by norm_num)).2.2 (by decide) (by decide)⟩

end UniversalAI

namespace UniversalAI

/-! ## Claim theorems: sanitizer (C2) -/

/-- C2 counterexample: the sanitizer is not idempotent.  On
`"\x1b[[0m0m"` the orphan pass splices a fresh full ANSI escape
sequence out of the survivors, so a second sanitize removes more. -/
theorem sanitize_not_idempotent_at_input :
    sanitize "\x1b[[0m0m" = "\x1b[0m" ∧
    sanitize (sanitize "\x1b[[0m0m") = "" ∧
    sanitize (sanitize "\x1b[[0m0m") ≠ sanitize "\x1b[[0m0m" := by
  decide

/-- C2 amended: the sanitizer is a pure function and, on already-clean
text (no escape character and no `[`), returns its input unchanged —
hence re-sanitizing such text equals sanitizing once; unconstrained
idempotence fails (see the counterexample). -/
theorem sanitize_clean_identity (s : String)
    (h1 : '\x1b' ∉ s.data) (h2 : '[' ∉ s.data) :
    sanitize s = s ∧ sanitize (sanitize s) = sanitize s := by
  have hid := sanitize_of_clean s h1 h2
  exact ⟨hid, by rw [hid, hid]⟩

/-- Witness for `sanitize_clean_identity` on `"hello world"`. -/
theorem sanitize_clean_identity_witness :
    ('\x1b' ∉ "hello world".data ∧ '[' ∉ "hello world".data) ∧
    sanitize "hello world" = "hello world" ∧
    sanitize (sanitize "hello world") = sanitize "hello world" :=
  ⟨⟨by decide, by decide⟩,
   sanitize_clean_identity "hello world" (by decide) (by decide)⟩

/-! ## Claim theorems: provider router (C4) -/

/-- C4: a model whose normalized identifier (strip, lower, part after
the first `/`) is `gpt-5.3` or `gpt-5.2` routes to the CLI backend for
every provider hint — in particular `openai/gpt-5.3` with hint
`openrouter`; for any other model, hint `codex` routes to the CLI
backend, and no hint or a hint not normalizing to `codex` routes to the
HTTP backend. -/
theorem should_use_codex_routing (m : String) (p : Option String) :
    (is_codex_model m = true → should_use_codex m p = true) ∧
    should_use_codex "openai/gpt-5.3" (some "openrouter") = true ∧
    (is_codex_model m = false →
      should_use_codex m (some "codex") = true ∧
      should_use_codex m none = false ∧
      ∀ q : String, pyLower (pyStrip q) ≠ "codex" →
        should_use_codex m (some q) = false) := by
  refine ⟨fun h => by simp [should_use_codex, h], by decide, fun h => ⟨?_, ?_, ?_⟩⟩
  · simp [should_use_codex, h]
    decide
  · simp [should_use_codex, h]
    decide
  · intro q hq
    simp only [should_use_codex, h, Bool.false_eq_true, if_false, Option.getD_some]
    rw [if_neg (by simpa using hq)]
    simp

/-- Witness for `should_use_codex_routing`: both hypothesis branches at
concrete models and hints. -/
theorem should_use_codex_routing_witness :
    (is_codex_model " GPT-5.2 " = true ∧
      should_use_codex " GPT-5.2 " (some "openrouter") = true) ∧
    (is_codex_model "openai/gpt-4o" = false ∧
      should_use_codex "openai/gpt-4o" (some "codex") = true ∧
      should_use_codex "openai/gpt-4o" none = false ∧
      (pyLower (pyStrip " OpenRouter ") ≠ "codex" ∧
        should_use_codex "openai/gpt-4o" (some " OpenRouter ") = false)) :=
  ⟨⟨by decide, (should_use_codex_routing " GPT-5.2 " (some "openrouter")).1 (by decide)⟩,
   ⟨by decide,
    ((should_use_codex_routing "openai/gpt-4o" none).2.2 (by decide)).1,
    ((should_use_codex_routing "openai/gpt-4o" none).2.2 (by decide)).2.1,
    ⟨by decide,
     ((should_use_codex_routing "openai/gpt-4o" none).2.2 (by decide)).2.2
       " OpenRouter " (by decide)⟩⟩⟩

end UniversalAI

namespace UniversalAI

/-! ## Claim theorems: pairing-code extraction (C6) -/

theorem matchCodeAt_shape {l : List Char} {code : String}
    (h : matchCodeAt l = some code) :
    code.data.length = 10 ∧ code.data[4]? = some '-' ∧
    (code.data.take 4).all isCodeChar = true ∧
    (code.data.drop 5).all isCodeChar = true := by
  unfold matchCodeAt at h
  split at h
  · rename_i a b c d e f g hh i rest
    split at h
    · rename_i hcond
      simp only [Option.some.injEq] at h
      subst h
      simp only [Bool.and_eq_true] at hcond
      refine ⟨rfl, rfl, ?_, ?_⟩ <;>
        simp [String.data, List.all_cons, hcond.1, hcond.2]
    · exact absurd h (by simp)
  · exact absurd h (by simp)

theorem matchCodeAt_none_of_all_code {l : List Char}
    (hall : ∀ c ∈ l, isCodeChar c = true) : matchCodeAt l = none := by
  unfold matchCodeAt
  split
  · rename_i a b c d e f g hh i rest
    exfalso
    have := hall '-' (by simp)
    simp [isCodeChar] at this
  · rfl

theorem codeSearchFrom_shape {l : List Char} :
    ∀ {prev : Option Char} {code : String},
    codeSearchFrom prev l = some code →
    code.data.length = 10 ∧ code.data[4]? = some '-' ∧
    (code.data.take 4).all isCodeChar = true ∧
    (code.data.drop 5).all isCodeChar = true := by
  induction l with
  | nil => intro prev code h; exact absurd h (by simp [codeSearchFrom])
  | cons c cs ih =>
    intro prev code h
    unfold codeSearchFrom at h
    rcases hm : (if leftBoundaryOk prev then matchCodeAt (c :: cs) else none) with _ | code'
    · rw [hm] at h
      exact ih h
    · rw [hm] at h
      simp only [Option.some.injEq] at h
      subst h
      by_cases hb : leftBoundaryOk prev = true
      · rw [if_pos hb] at hm
        exact matchCodeAt_shape hm
      · rw [if_neg hb] at hm
        exact absurd hm (by simp)

theorem codeSearchFrom_none_of_all_code {l : List Char}
    (hall : ∀ c ∈ l, isCodeChar c = true) :
    ∀ prev : Option Char, codeSearchFrom prev l = none := by
  induction l with
  | nil => intro prev; rfl
  | cons c cs ih =>
    intro prev
    unfold codeSearchFrom
    rw [matchCodeAt_none_of_all_code hall]
    have hif : (if leftBoundaryOk prev then (none : Option String) else none) = none := by
      split <;> rfl
    rw [hif]
    exact ih (fun c hc => hall c (List.mem_cons_of_mem _ hc)) (some c)

/-- C6 counterexample: a raw 9-character alphanumeric match is *not*
normalized into `XXXX-XXXXX`; the extraction only matches codes that
already contain the hyphen, so `ABCDEFGHI` yields no pairing code at
all. -/
theorem code_extraction_no_normalization :
    codePatternSearch "ABCDEFGHI" ≠ some "ABCD-EFGHI" ∧
    codePatternSearch "ABCDEFGHI" = none := by
  decide

/-- C6 amended: the extraction recognizes only codes already in
`XXXX-XXXXX` form — every reported code has 10 characters with `-` at
index 4 and `[A-Z0-9]` elsewhere; a string consisting solely of
uppercase alphanumerics (in particular the literal `AUTHUSAGE`, or any
raw 9-character match) contains no hyphen and is never reported, and no
normalization of raw matches takes place. -/
theorem code_extraction_hyphenated_only (s : String) (code : String)
    (h : codePatternSearch s = some code) :
    (code.data.length = 10 ∧ code.data[4]? = some '-' ∧
      (code.data.take 4).all isCodeChar = true ∧
      (code.data.drop 5).all isCodeChar = true) ∧
    codePatternSearch "AUTHUSAGE" = none ∧
    (∀ t : String, t.data.all isCodeChar = true → codePatternSearch t = none) := by
  refine ⟨codeSearchFrom_shape h, by decide, fun t ht => ?_⟩
  exact codeSearchFrom_none_of_all_code (by simpa [List.all_eq_true] using ht) none

/-- Witness for `code_extraction_hyphenated_only` on output containing
`ABCD-EFGHI`. -/
theorem code_extraction_hyphenated_only_witness :
    codePatternSearch "Enter code ABCD-EFGHI at the page" = some "ABCD-EFGHI" ∧
    ("ABCD-EFGHI".data.length = 10 ∧ "ABCD-EFGHI".data[4]? = some '-' ∧
      ("ABCD-EFGHI".data.take 4).all isCodeChar = true ∧
      ("ABCD-EFGHI".data.drop 5).all isCodeChar = true) ∧
    codePatternSearch "AUTHUSAGE" = none ∧
    codePatternSearch "ABCDEFGHI" = none :=
  ⟨by decide,
   (code_extraction_hyphenated_only "Enter code ABCD-EFGHI at the page"
      "ABCD-EFGHI" (by decide)).1,
   (code_extraction_hyphenated_only "Enter code ABCD-EFGHI at the page"
      "ABCD-EFGHI" (by decide)).2.1,
   (code_extraction_hyphenated_only "Enter code ABCD-EFGHI at the page"
      "ABCD-EFGHI" (by decide)).2.2 "ABCDEFGHI" (by decide)⟩

end UniversalAI

namespace UniversalAI

/-! ## Claim theorems: model-catalog fetch cache (C7) -/

theorem get_openrouter_models_ok_cache
    (cache : ModelCacheState) (now : ℚ) (status : Nat) (payload : Json)
    {ms : List Json}
    (h : (get_openrouter_models cache now status payload).result = .ok ms) :
    (get_openrouter_models cache now status payload).cache.models = ms := by
  unfold get_openrouter_models at h ⊢
  by_cases hc : cache.models.isEmpty = false ∧
      now - cache.fetched_at < (MODEL_CACHE_TTL_SECONDS : ℚ)
  · rw [if_pos hc] at h ⊢
    simpa using h
  · rw [if_neg hc] at h ⊢
    by_cases hs : status ≠ 200
    · rw [if_pos hs] at h
      simp at h
    · rw [if_neg hs] at h ⊢
      simpa using h

theorem get_openrouter_models_hit
    (cache : ModelCacheState) (now : ℚ) (status : Nat) (payload : Json)
    (h1 : cache.models.isEmpty = false)
    (h2 : now - cache.fetched_at < (MODEL_CACHE_TTL_SECONDS : ℚ)) :
    get_openrouter_models cache now status payload =
      { result := .ok cache.models, cache := cache, fetchedRemote := false } := by
  unfold get_openrouter_models
  rw [if_pos ⟨h1, h2⟩]

/-- C7 amended: a hit of the in-process cache — possible only when the
cached list is non-empty — returns the cached list with no remote
fetch; on a cache miss a non-200 response raises the descriptive error
and leaves the cached value and its timestamp unchanged; and after any
call whose fetch succeeded with a *non-empty* list, a second call
within the 300-second TTL returns that list without a remote fetch. -/
theorem models_cache_ttl_behavior
    (cache : ModelCacheState) (now : ℚ) (status : Nat) (payload : Json) :
    (cache.models.isEmpty = false →
      now - cache.fetched_at < (MODEL_CACHE_TTL_SECONDS : ℚ) →
      get_openrouter_models cache now status payload =
        { result := .ok cache.models, cache := cache, fetchedRemote := false }) ∧
    (¬(cache.models.isEmpty = false ∧
        now - cache.fetched_at < (MODEL_CACHE_TTL_SECONDS : ℚ)) →
      status ≠ 200 →
      get_openrouter_models cache now status payload =
        { result := .error ("OpenRouter models request failed (" ++ toString status ++ ")")
          cache := cache, fetchedRemote := true }) ∧
    (∀ (now2 : ℚ) (status2 : Nat) (payload2 : Json) (ms : List Json),
      (get_openrouter_models cache now status payload).result = .ok ms →
      ms.isEmpty = false →
      now2 - (get_openrouter_models cache now status payload).cache.fetched_at <
        (MODEL_CACHE_TTL_SECONDS : ℚ) →
      get_openrouter_models (get_openrouter_models cache now status payload).cache
          now2 status2 payload2 =
        { result := .ok ms
          cache := (get_openrouter_models cache now status payload).cache
          fetchedRemote := false }) := by
  refine ⟨get_openrouter_models_hit cache now status payload,
    fun h1 h2 => ?_, fun now2 status2 payload2 ms hok hne httl => ?_⟩
  · unfold get_openrouter_models
    rw [if_neg h1, if_pos h2]
  · have hcm := get_openrouter_models_ok_cache cache now status payload hok
    rw [get_openrouter_models_hit _ now2 status2 payload2 (by rw [hcm]; exact hne) httl,
      hcm]

end UniversalAI

namespace UniversalAI

/-- The `{"data": [...]}` payload of a successful models response whose
list is empty. -/
def emptyDataPayload : Json := Json.obj [("data", Json.arr [])]

/-- A successful models response payload with one entry. -/
def oneDataPayload : Json := Json.obj [("data", Json.arr [Json.str "m1"])]

/-- C7 counterexample: a successful fetch that stored an *empty* list
does not arm the cache — the very next call inside the 300-second TTL
window performs another remote fetch, so two calls in the window make
two remote fetches. -/
theorem models_cache_empty_list_refetches :
    (get_openrouter_models ⟨0, []⟩ 10 200 emptyDataPayload).result = .ok [] ∧
    (get_openrouter_models ⟨0, []⟩ 10 200 emptyDataPayload).fetchedRemote = true ∧
    (get_openrouter_models ⟨0, []⟩ 10 200 emptyDataPayload).cache.fetched_at = 10 ∧
    (20 : ℚ) - (get_openrouter_models ⟨0, []⟩ 10 200 emptyDataPayload).cache.fetched_at <
      (MODEL_CACHE_TTL_SECONDS : ℚ) ∧
    (get_openrouter_models (get_openrouter_models ⟨0, []⟩ 10 200 emptyDataPayload).cache
      20 200 emptyDataPayload).fetchedRemote = true := by
  have h1 : get_openrouter_models ⟨0, []⟩ 10 200 emptyDataPayload =
      { result := .ok [], cache := ⟨10, []⟩, fetchedRemote := true } := by
    unfold get_openrouter_models
    rw [if_neg (by simp), if_neg (by simp)]
    simp [emptyDataPayload, Json.get?, jsonLookup]
  have h2 : get_openrouter_models ⟨10, []⟩ 20 200 emptyDataPayload =
      { result := .ok [], cache := ⟨20, []⟩, fetchedRemote := true } := by
    unfold get_openrouter_models
    rw [if_neg (by simp), if_neg (by simp)]
    simp [emptyDataPayload, Json.get?, jsonLookup]
  rw [h1]
  refine ⟨rfl, rfl, rfl, ?_, ?_⟩
  · norm_num [ MODEL_CACHE_TTL_SECONDS]
  · rw [h2]

/-- Witness for `models_cache_ttl_behavior`: a concrete cache hit, a
concrete failed refresh, and a concrete successful-fetch-then-hit
sequence. -/
theorem models_cache_ttl_behavior_witness :
    get_openrouter_models ⟨10, [Json.str "m1"]⟩ 20 500 Json.null =
      { result := .ok [Json.str "m1"], cache := ⟨10, [Json.str "m1"]⟩
        fetchedRemote := false } ∧
    get_openrouter_models ⟨0, []⟩ 10 503 Json.null =
      { result := .error ("OpenRouter models request failed (" ++ toString 503 ++ ")")
        cache := ⟨0, []⟩, fetchedRemote := true } ∧
    get_openrouter_models (get_openrouter_models ⟨0, []⟩ 10 200 oneDataPayload).cache
        20 404 Json.null =
      { result := .ok [Json.str "m1"]
        cache := (get_openrouter_models ⟨0, []⟩ 10 200 oneDataPayload).cache
        fetchedRemote := false } := by
  have hfirst : get_openrouter_models ⟨0, []⟩ 10 200 oneDataPayload =
      { result := .ok [Json.str "m1"], cache := ⟨10, [Json.str "m1"]⟩
        fetchedRemote := true } := by
    unfold get_openrouter_models
    rw [if_neg (by simp), if_neg (by simp)]
    simp [oneDataPayload, Json.get?, jsonLookup]
  have httl1 : (20 : ℚ) - (10 : ℚ) < (MODEL_CACHE_TTL_SECONDS : ℚ) := by
    norm_num [ MODEL_CACHE_TTL_SECONDS]
  have httl2 : (20 : ℚ) -
      (get_openrouter_models ⟨0, []⟩ 10 200 oneDataPayload).cache.fetched_at <
      (MODEL_CACHE_TTL_SECONDS : ℚ) := by
    rw [hfirst]
    norm_num [ MODEL_CACHE_TTL_SECONDS]
  exact ⟨(models_cache_ttl_behavior ⟨10, [Json.str "m1"]⟩ 20 500 Json.null).1
      (by simp) httl1,
    (models_cache_ttl_behavior ⟨0, []⟩ 10 503 Json.null).2.1 (by simp) (by decide),
    (models_cache_ttl_behavior ⟨0, []⟩ 10 200 oneDataPayload).2.2 20 404 Json.null
      [Json.str "m1"] (by rw [hfirst]) (by simp) httl2⟩

end UniversalAI

namespace UniversalAI

/-! ## Claim theorems: `/api/models/openrouter` normalization (C10) -/

/-- C10: every entry produced by the `openrouter_models` normalization
has a string id (`m["id"]`), a name that falls back to the id when the
upstream name is absent or the empty string, and a `context_length`
defaulting to `0` when absent; upstream entries that are not dicts or
whose id is not a string are dropped by the comprehension guard rather
than failing. -/
theorem openrouter_models_entry_shape (models : List Json) (m : Json)
    (e : NormalizedModel) :
    (normalizeEntry m = none ↔ (isDict m && idIsString m) = false) ∧
    (normalizeEntry m = some e →
      (∃ s : String, m.get? "id" = some (.str s) ∧ e.id = .str s) ∧
      ((m.get? "name" = none ∨ m.get? "name" = some (.str "")) → e.name = e.id) ∧
      (m.get? "context_length" = none → e.context_length = .num 0)) ∧
    (∀ e' ∈ openrouter_models_normalized models,
      ∃ m' ∈ models, normalizeEntry m' = some e') := by
  refine ⟨?_, fun h => ?_, fun e' he' => ?_⟩
  · unfold normalizeEntry
    by_cases hg : (isDict m && idIsString m) = true
    · simp [hg]
    · simp only [Bool.not_eq_true] at hg
      simp [hg]
  · unfold normalizeEntry at h
    by_cases hg : (isDict m && idIsString m) = true
    · rw [if_pos hg] at h
      simp only [Option.some.injEq] at h
      have hid : ∃ s : String, m.get? "id" = some (.str s) := by
        have := (Bool.and_eq_true _ _).mp hg |>.2
        unfold idIsString at this
        rcases hm : m.get? "id" with _ | v
        · rw [hm] at this; simp at this
        · rcases v with _ | _ | _ | s | _ | _ <;> rw [hm] at this <;>
            first
            | exact ⟨_, rfl⟩
            | simp at this
      rcases hid with ⟨s, hs⟩
      refine ⟨⟨s, hs, ?_⟩, fun hn => ?_, fun hc => ?_⟩
      · rw [← h]
        simp [hs]
      · rw [← h]
        rcases hn with hn | hn
        · simp [hn]
        · simp [hn, pyTruthy, show ("" : String).isEmpty = true from rfl]
      · rw [← h]
        simp [hc]
    · rw [if_neg hg] at h
      exact absurd h (by simp)
  · unfold openrouter_models_normalized at he'
    rcases List.mem_filterMap.mp he' with ⟨m', hm', hsome⟩
    exact ⟨m', hm', hsome⟩

/-- Witness for `openrouter_models_entry_shape`: an upstream entry with
only a string id is kept with name = id and context_length = 0; a
non-dict entry is dropped. -/
theorem openrouter_models_entry_shape_witness :
    (normalizeEntry (Json.str "junk") = none ↔
      (isDict (Json.str "junk") && idIsString (Json.str "junk")) = false) ∧
    ((∃ s : String, (Json.obj [("id", Json.str "a")]).get? "id" = some (.str s) ∧
        (Json.str "a" : Json) = .str s) ∧
      (((Json.obj [("id", Json.str "a")]).get? "name" = none ∨
        (Json.obj [("id", Json.str "a")]).get? "name" = some (.str "")) →
        (Json.str "a" : Json) = .str "a") ∧
      ((Json.obj [("id", Json.str "a")]).get? "context_length" = none →
        (Json.num 0 : Json) = .num 0)) ∧
    (∃ m' ∈ [Json.obj [("id", Json.str "a")]], normalizeEntry m' =
      some ⟨Json.str "a", Json.str "a", Json.num 0⟩) :=
  ⟨(openrouter_models_entry_shape [] (Json.str "junk")
      ⟨Json.null, Json.null, Json.null⟩).1,
   (openrouter_models_entry_shape [] (Json.obj [("id", Json.str "a")])
      ⟨Json.str "a", Json.str "a", Json.num 0⟩).2.1 rfl,
   (openrouter_models_entry_shape [Json.obj [("id", Json.str "a")]]
      (Json.null) ⟨Json.null, Json.null, Json.null⟩).2.2
      ⟨Json.str "a", Json.str "a", Json.num 0⟩
      (by simp [openrouter_models_normalized, normalizeEntry, isDict, idIsString,
        Json.get?, jsonLookup])⟩

end UniversalAI

namespace UniversalAI

/-! ## Claim theorems: catalog merge (C8) -/

theorem mergeStep_any_mono {m : List ModelEntry} {k : String}
    (h : m.any (fun x => x.id == k) = true) (j : Json) :
    (mergeStep m j).any (fun x => x.id == k) = true := by
  unfold mergeStep
  rcases dynamicId j with _ | id
  · exact h
  · by_cases hkw : keywordMatch id = true
    · simp only [hkw, if_true]
      unfold setdefaultEntry
      split
      · exact h
      · simp [List.any_append, h]
    · simp only [hkw, if_false]
      exact h

theorem foldl_mergeStep_any_mono {m : List ModelEntry} {k : String}
    (h : m.any (fun x => x.id == k) = true) :
    ∀ d : List Json, (d.foldl mergeStep m).any (fun x => x.id == k) = true := by
  intro d
  induction d generalizing m with
  | nil => exact h
  | cons j d' ih =>
    simp only [List.foldl_cons]
    exact ih (mergeStep_any_mono h j)

theorem mergeStep_adds_key {m : List ModelEntry} {j : Json} {id : String}
    (hid : dynamicId j = some id) (hkw : keywordMatch id = true) :
    (mergeStep m j).any (fun x => x.id == id) = true := by
  unfold mergeStep
  rw [hid]
  simp only [hkw, if_true]
  unfold setdefaultEntry
  split
  · assumption
  · simp [List.any_append]

theorem foldl_mergeStep_key_present :
    ∀ (d : List Json) (m : List ModelEntry) (j : Json) (id : String),
    j ∈ d → dynamicId j = some id → keywordMatch id = true →
    (d.foldl mergeStep m).any (fun x => x.id == id) = true := by
  intro d
  induction d with
  | nil => intro m j id hj; exact absurd hj (List.not_mem_nil j)
  | cons j0 d' ih =>
    intro m j id hj hid hkw
    simp only [List.foldl_cons]
    rcases List.mem_cons.mp hj with rfl | hj'
    · exact foldl_mergeStep_any_mono (mergeStep_adds_key hid hkw) d'
    · exact ih (mergeStep m j0) j id hj' hid hkw

theorem foldl_mergeStep_noop :
    ∀ (d : List Json) (m : List ModelEntry),
    (∀ j ∈ d, ∀ id : String, dynamicId j = some id → keywordMatch id = true →
      m.any (fun x => x.id == id) = true) →
    d.foldl mergeStep m = m := by
  intro d
  induction d with
  | nil => intro m _; rfl
  | cons j d' ih =>
    intro m hall
    have hstep : mergeStep m j = m := by
      unfold mergeStep
      rcases hid : dynamicId j with _ | id
      · rfl
      · by_cases hkw : keywordMatch id = true
        · simp only [hkw, if_true]
          unfold setdefaultEntry
          rw [if_pos (hall j (List.mem_cons_self j d') id hid hkw)]
        · simp [hkw]
    simp only [List.foldl_cons, hstep]
    exact ih m (fun j' hj' => hall j' (List.mem_cons_of_mem _ hj'))

theorem foldl_mergeStep_structure :
    ∀ (d : List Json) (m : List ModelEntry),
    ∃ extra : List ModelEntry, d.foldl mergeStep m = m ++ extra ∧
      ∀ e ∈ extra, m.any (fun x => x.id == e.id) = false ∧
        keywordMatch e.id = true ∧ e.label = codex_label e.id := by
  intro d
  induction d with
  | nil => exact fun m => ⟨[], by simp, by simp⟩
  | cons j d' ih =>
    intro m
    simp only [List.foldl_cons]
    rcases hid : dynamicId j with _ | id
    · have hstep : mergeStep m j = m := by unfold mergeStep; rw [hid]
      rw [hstep]; exact ih m
    · by_cases hkw : keywordMatch id = true
      · by_cases hpres : m.any (fun x => x.id == id) = true
        · have hstep : mergeStep m j = m := by
            unfold mergeStep
            rw [hid]
            simp only [hkw, if_true]
            unfold setdefaultEntry
            rw [if_pos hpres]
          rw [hstep]; exact ih m
        · have hstep : mergeStep m j = m ++ [⟨id, codex_label id⟩] := by
            unfold mergeStep
            rw [hid]
            simp only [hkw, if_true]
            unfold setdefaultEntry
            rw [if_neg hpres]
          rw [hstep]
          rcases ih (m ++ [⟨id, codex_label id⟩]) with ⟨extra, heq, hprop⟩
          refine ⟨⟨id, codex_label id⟩ :: extra, by rw [heq, List.append_assoc]; rfl, ?_⟩
          intro e he
          rcases List.mem_cons.mp he with rfl | he'
          · exact ⟨Bool.eq_false_iff.mpr (fun hx => hpres hx), hkw, rfl⟩
          · rcases hprop e he' with ⟨hany, hkw', hlb⟩
            refine ⟨?_, hkw', hlb⟩
            rw [List.any_append] at hany
            exact (Bool.or_eq_false_iff.mp hany).1
      · have hstep : mergeStep m j = m := by
          unfold mergeStep
          rw [hid]
          simp [hkw]
        rw [hstep]; exact ih m

end UniversalAI

namespace UniversalAI

/-- C8: `merge_codex_models` is idempotent and order-stable — merging
the same dynamic list twice yields the identical catalog, entries in
the same order; a curated entry's label is never overwritten by a
dynamic entry with the same id; and every non-curated catalog entry
comes from a dynamic entry whose id contains one of the fixed keyword
substrings (case-insensitively). -/
theorem merge_codex_models_properties (d : List Json) :
    merge_codex_models (d ++ d) = merge_codex_models d ∧
    (∀ e ∈ merge_codex_models d, ∀ c ∈ codex_curated_models,
      e.id = c.id → e.label = c.label) ∧
    (∀ e ∈ merge_codex_models d,
      e ∈ codex_curated_models ∨ keywordMatch e.id = true) := by
  refine ⟨?_, fun e he c hc hec => ?_, fun e he => ?_⟩
  · unfold merge_codex_models
    rw [List.foldl_append]
    exact foldl_mergeStep_noop d _
      (fun j hj id hid hkw => foldl_mergeStep_key_present d _ j id hj hid hkw)
  · rcases foldl_mergeStep_structure d codex_curated_models with ⟨extra, heq, hprop⟩
    unfold merge_codex_models at he
    rw [heq] at he
    rcases List.mem_append.mp he with hcur | hext
    · simp only [codex_curated_models, List.mem_cons, List.not_mem_nil,
        or_false] at hcur hc
      rcases hcur with rfl | rfl | rfl | rfl | rfl | rfl | rfl <;>
        rcases hc with rfl | rfl | rfl | rfl | rfl | rfl | rfl <;>
          simp_all
    · rcases hprop e hext with ⟨hany, _, _⟩
      exfalso
      have := List.any_eq_false.mp hany c hc
      rw [hec] at this
      simp at this
  · rcases foldl_mergeStep_structure d codex_curated_models with ⟨extra, heq, hprop⟩
    unfold merge_codex_models at he
    rw [heq] at he
    rcases List.mem_append.mp he with hcur | hext
    · exact Or.inl hcur
    · exact Or.inr (hprop e hext).2.1

/-- A dynamic catalog entry whose id contains the keyword `gpt-5.3`. -/
def dynGpt53 : Json := Json.obj [("id", Json.str "org/gpt-5.3-exp")]

/-- Witness for `merge_codex_models_properties` on the one-entry dynamic
list `[{"id": "org/gpt-5.3-exp"}]`. -/
theorem merge_codex_models_properties_witness :
    merge_codex_models ([dynGpt53] ++ [dynGpt53]) = merge_codex_models [dynGpt53] ∧
    (⟨"gpt-5.3", "GPT-5.3 Codex"⟩ : ModelEntry) ∈ merge_codex_models [dynGpt53] ∧
    ("GPT-5.3 Codex" : String) = "GPT-5.3 Codex" ∧
    ((⟨"org/gpt-5.3-exp", "Gpt 5.3 Exp"⟩ : ModelEntry) ∈ codex_curated_models ∨
      keywordMatch "org/gpt-5.3-exp" = true) :=
  ⟨(merge_codex_models_properties [dynGpt53]).1,
   by decide,
   (merge_codex_models_properties [dynGpt53]).2.1 ⟨"gpt-5.3", "GPT-5.3 Codex"⟩
     (by decide) ⟨"gpt-5.3", "GPT-5.3 Codex"⟩ (by decide) rfl,
   (merge_codex_models_properties [dynGpt53]).2.2 ⟨"org/gpt-5.3-exp", "Gpt 5.3 Exp"⟩
     (by decide)⟩

end UniversalAI

namespace UniversalAI

/-! ## Claim theorems: recommendation endpoint (C9) -/

theorem merge_codex_models_ne_nil (dynamic : List Json) :
    (merge_codex_models dynamic).isEmpty = false := by
  rcases foldl_mergeStep_structure dynamic codex_curated_models with ⟨extra, heq, -⟩
  unfold merge_codex_models
  rw [heq]
  simp [codex_curated_models]

/-- C9: the 400 `No candidates provided` branch of `recommend_model` is
unreachable — an empty candidates list falls back to the merged codex
catalog, which always contains at least the seven curated entries, so a
recommendation is produced for every payload. -/
theorem recommend_model_always_recommends (message : String)
    (candidates : List String) (dynamic : List Json) :
    recommend_model message candidates dynamic ≠ .badRequest ∧
    ∃ best ranked reason,
      recommend_model message candidates dynamic = .ok best ranked reason := by
  have hcands : (if candidates.isEmpty then
      (merge_codex_models dynamic).map (fun e => e.id) else candidates).isEmpty = false := by
    split
    · simpa using merge_codex_models_ne_nil dynamic
    · rename_i h
      simpa using h
  have hne : (if candidates.isEmpty then
      (merge_codex_models dynamic).map (fun e => e.id) else candidates) ≠ [] := by
    intro hnil
    rw [hnil] at hcands
    simp at hcands
  unfold recommend_model
  simp only []
  rw [if_neg (by rw [hcands]; simp)]
  have hlen : (((if candidates.isEmpty then
        (merge_codex_models dynamic).map (fun e => e.id) else candidates).map
        (fun m => (m, rank_model_for_prompt message m))).mergeSort
        (fun a b => decide (b.2 ≤ a.2))).length ≠ 0 := by
    rw [List.length_mergeSort, List.length_map]
    intro h0
    exact hne (List.length_eq_zero.mp h0)
  rcases hsort : ((if candidates.isEmpty then
        (merge_codex_models dynamic).map (fun e => e.id) else candidates).map
        (fun m => (m, rank_model_for_prompt message m))).mergeSort
        (fun a b => decide (b.2 ≤ a.2)) with _ | ⟨⟨best, best_score⟩, rest⟩
  · rw [hsort] at hlen
    simp at hlen
  · rw [hsort]
    exact ⟨by simp, best, _, _, rfl⟩

end UniversalAI

namespace UniversalAI

/-! ## Claim theorems: streaming done-frame discipline (C1) -/

theorem append_ne_done {pre rest : String}
    (h6 : pre.data[6]? = some '\x7b') : pre ++ rest ≠ doneFrame := by
  intro h
  have hd : (pre ++ rest).data = pre.data ++ rest.data := String.data_append pre rest
  have hlt : 6 < pre.data.length := (List.getElem?_eq_some.mp h6).1
  have h1 : (pre.data ++ rest.data)[6]? = some '\x7b' := by
    rw [List.getElem?_append_left hlt]; exact h6
  rw [← hd, h] at h1
  have h2 : doneFrame.data[6]? = some '[' := by decide
  rw [h1] at h2
  simp at h2

theorem contentFrame_ne_done (t : String) : contentFrame t ≠ doneFrame :=
  append_ne_done (by decide)

theorem errorFrame_ne_done (msg : String) : errorFrame msg ≠ doneFrame :=
  append_ne_done (by decide)

theorem errorDetailFrame_ne_done (msg detail : String) :
    errorDetailFrame msg detail ≠ doneFrame :=
  append_ne_done (by decide)

theorem done_not_mem_codexContentFrames (chunks : List String) :
    doneFrame ∉ codexContentFrames chunks := by
  intro hmem
  rcases List.mem_filterMap.mp hmem with ⟨t, -, hsome⟩
  by_cases ht : t.isEmpty
  · rw [if_pos ht] at hsome
    exact absurd hsome (by simp)
  · rw [if_neg ht] at hsome
    simp only [Option.some.injEq] at hsome
    exact contentFrame_ne_done (sanitize t) hsome

theorem count_done_codexContentFrames (chunks : List String) :
    (codexContentFrames chunks).count doneFrame = 0 :=
  List.count_eq_zero.mpr (done_not_mem_codexContentFrames chunks)

theorem count_getLast_append_two {frames : List String} {a : String}
    (hz : frames.count doneFrame = 0) (ha : a ≠ doneFrame) :
    (frames ++ [a, doneFrame]).count doneFrame = 1 ∧
    (frames ++ [a, doneFrame]).getLast? = some doneFrame := by
  constructor
  · rw [List.count_append, hz, List.count_cons, List.count_cons, List.count_nil]
    simp [ha]
  · rw [show frames ++ [a, doneFrame] = (frames ++ [a]) ++ [doneFrame] by simp,
      List.getLast?_concat]

theorem count_getLast_append_one {frames : List String}
    (hz : frames.count doneFrame = 0) :
    (frames ++ [doneFrame]).count doneFrame = 1 ∧
    (frames ++ [doneFrame]).getLast? = some doneFrame := by
  constructor
  · rw [List.count_append, hz, List.count_cons, List.count_nil]
    simp
  · rw [List.getLast?_concat]

/-- C1 counterexample: on a successful 200 response whose delivered
stream is a single upstream `data:` line, `openrouter_stream_generator`
re-emits that line and terminates without any `data: [DONE]` frame — the
frame sequence does not end with a done frame. -/
theorem openrouter_success_stream_without_done :
    openrouter_stream_generator
        { api_key := some "key", excBeforeBody := none, status := 200
          body := "", lines := ["data: x"], excAfterLines := none } =
      ["data: x\n\n"] ∧
    (openrouter_stream_generator
        { api_key := some "key", excBeforeBody := none, status := 200
          body := "", lines := ["data: x"], excAfterLines := none }).getLast? ≠
      some doneFrame ∧
    (openrouter_stream_generator
        { api_key := some "key", excBeforeBody := none, status := 200
          body := "", lines := ["data: x"], excAfterLines := none }).count
        doneFrame = 0 := by
  refine ⟨by decide, by decide, by decide⟩

/-- C1 amended: `codex_stream_generator` (with its stdout pipe
available, as `stdout=PIPE` guarantees) always emits exactly one
`data: [DONE]` frame, as the last frame, on every exit path —
including an exception after 0, 1 or many chunks; for
`openrouter_stream_generator` the same holds on the missing-key,
pre-body-exception, non-200 and mid-stream-exception paths (the latter
provided the upstream lines delivered so far did not themselves include
a `data: [DONE]` line, which the generator re-emits verbatim), but on a
successfully completed 200 stream the generator only re-emits the
upstream `data:` lines and appends no done frame of its own. -/
theorem stream_done_frame_discipline (r : CodexRun) (q : OpenRouterRun)
    (hr : r.stdoutAvailable = true)
    (hq : (q.api_key.getD "").isEmpty = true ∨ q.excBeforeBody ≠ none ∨
      q.status ≠ 200 ∨
      (q.excAfterLines ≠ none ∧ doneFrame ∉ openRouterLineFrames q.lines)) :
    ((codex_stream_generator r).count doneFrame = 1 ∧
      (codex_stream_generator r).getLast? = some doneFrame) ∧
    ((openrouter_stream_generator q).count doneFrame = 1 ∧
      (openrouter_stream_generator q).getLast? = some doneFrame) ∧
    (∀ q' : OpenRouterRun, (q'.api_key.getD "").isEmpty = false →
      q'.excBeforeBody = none → q'.status = 200 → q'.excAfterLines = none →
      openrouter_stream_generator q' = openRouterLineFrames q'.lines) := by
  refine ⟨?_, ?_, fun q' hk hb hst hx => ?_⟩
  · unfold codex_stream_generator
    rw [if_neg (by rw [hr]; simp)]
    rcases hexc : r.exc with _ | e
    · dsimp only
      by_cases hrc : r.returnCode ≠ 0
      · rw [if_pos hrc]
        exact count_getLast_append_two (count_done_codexContentFrames r.chunks)
          (errorDetailFrame_ne_done _ _)
      · rw [if_neg hrc]
        exact count_getLast_append_one (count_done_codexContentFrames r.chunks)
    · dsimp only
      exact count_getLast_append_two (count_done_codexContentFrames r.chunks)
        (errorFrame_ne_done e)
  · unfold openrouter_stream_generator
    by_cases hk : (q.api_key.getD "").isEmpty = true
    · rw [if_pos hk]
      have h0 : ([] : List String) ++
          [errorFrame "OpenRouter API key is required for this model.", doneFrame] =
          [errorFrame "OpenRouter API key is required for this model.", doneFrame] := rfl
      rw [← h0]
      exact count_getLast_append_two (by simp) (errorFrame_ne_done _)
    · rw [if_neg hk]
      rcases hb : q.excBeforeBody with _ | e
      · by_cases hst : q.status ≠ 200
        · rw [if_pos hst]
          have : ([] : List String) ++
              [errorDetailFrame ("OpenRouter request failed with status " ++ toString q.status)
                (String.mk (q.body.data.take 600)), doneFrame] =
              [errorDetailFrame ("OpenRouter request failed with status " ++ toString q.status)
                (String.mk (q.body.data.take 600)), doneFrame] := rfl
          rw [← this]
          exact count_getLast_append_two (by simp) (errorDetailFrame_ne_done _ _)
        · rw [if_neg hst]
          rcases hx : q.excAfterLines with _ | e
          · dsimp only
            exfalso
            rcases hq with hq | hq | hq | ⟨hq, -⟩
            · exact hk hq
            · exact hq hb
            · exact hst hq
            · exact hq hx
          · have hnotin : doneFrame ∉ openRouterLineFrames q.lines := by
              rcases hq with hq | hq | hq | ⟨-, hq⟩
              · exact absurd hq hk
              · exact absurd hb hq
              · exact absurd hq hst
              · exact hq
            dsimp only
            exact count_getLast_append_two
              (List.count_eq_zero.mpr hnotin) (errorFrame_ne_done e)
      · dsimp only
        have h0 : ([] : List String) ++ [errorFrame e, doneFrame] =
            [errorFrame e, doneFrame] := rfl
        rw [← h0]
        exact count_getLast_append_two (by simp) (errorFrame_ne_done e)
  · unfold openrouter_stream_generator
    rw [if_neg (by rw [hk]; simp), hb, if_neg (by rw [hst]; simp), hx]

/-- Witness for `stream_done_frame_discipline`: a codex run that fails
after one chunk, an openrouter run rejected for a missing key, and a
successfully completed openrouter stream. -/
theorem stream_done_frame_discipline_witness :
    ((codex_stream_generator
        { stdoutAvailable := true, chunks := ["hi"], exc := some "boom"
          returnCode := 0 }).count doneFrame = 1 ∧
      (codex_stream_generator
        { stdoutAvailable := true, chunks := ["hi"], exc := some "boom"
          returnCode := 0 }).getLast? = some doneFrame) ∧
    ((openrouter_stream_generator
        { api_key := none, excBeforeBody := none, status := 200, body := ""
          lines := [], excAfterLines := none }).count doneFrame = 1 ∧
      (openrouter_stream_generator
        { api_key := none, excBeforeBody := none, status := 200, body := ""
          lines := [], excAfterLines := none }).getLast? = some doneFrame) ∧
    (∀ q' : OpenRouterRun, (q'.api_key.getD "").isEmpty = false →
      q'.excBeforeBody = none → q'.status = 200 → q'.excAfterLines = none →
      openrouter_stream_generator q' = openRouterLineFrames q'.lines) :=
  stream_done_frame_discipline
    { stdoutAvailable := true, chunks := ["hi"], exc := some "boom"
      returnCode := 0 }
    { api_key := none, excBeforeBody := none, status := 200, body := ""
      lines := [], excAfterLines := none }
    rfl (Or.inl (by decide))

end UniversalAI
